import Mathlib

/-!
Shallow embedding of the nesma-sla-dashboard sheet-to-report pipeline
(`sync_sla.py`, `sync_smartsheet.py`, `api/smartsheet.py`, `sync_logistics.py`).

Python dynamic values are modelled by `Val` (None / str / numeric / bool);
Python numbers (int and float alike) are modelled by `ℚ`.  Records are
association lists from canonical field names to values, with `dict.get`
modelled by `rgetD`.  The timestamp fields (`last_update`) of the reports
are omitted: they read the wall clock, which is outside the pure pipeline.

Known model simplifications, none of which is exercised by the theorems
below: Python `float()` string parsing is modelled for ASCII sign / digits /
decimal point / exponent literals (no `inf`/`nan`/underscores/Unicode
digits), and `str()` of a non-integer number is approximated by the `ℚ`
representation.
-/

set_option maxRecDepth 100000

namespace Nesma

/-- A Python runtime value as it occurs in this pipeline. -/
inductive Val where
  | none
  | str (s : String)
  | num (q : ℚ)
  | bool (b : Bool)
deriving DecidableEq, Repr

/-- Python truthiness (`bool(v)`) for the values of the model. -/
def truthy : Val → Bool
  | Val.none => false
  | Val.str s => !(s.isEmpty)
  | Val.num q => decide (q ≠ 0)
  | Val.bool b => b

/-- Python `==` between runtime values (`bool` compares numerically with
numbers, distinct types are unequal otherwise). -/
def pyEq : Val → Val → Bool
  | Val.none, Val.none => true
  | Val.str a, Val.str b => decide (a = b)
  | Val.num a, Val.num b => decide (a = b)
  | Val.bool a, Val.bool b => decide (a = b)
  | Val.bool a, Val.num b => decide ((if a then (1 : ℚ) else 0) = b)
  | Val.num a, Val.bool b => decide (a = (if b then (1 : ℚ) else 0))
  | _, _ => false

/-- Python `a or b` specialised to the cell-value use `value or displayValue`:
the first operand if truthy, otherwise the second. -/
def pyOr (a b : Val) : Val := if truthy a then a else b

/-- Python `str(v)`.  For non-integer numbers the decimal float notation is
approximated by the rational notation; integers print exactly. -/
def pyStr : Val → String
  | Val.none => "None"
  | Val.str s => s
  | Val.num q => if q.den = 1 then toString q.num else toString q
  | Val.bool b => if b then "True" else "False"

/-- A record: canonical field name → raw value (a Python dict built by the
record builder; only `get`/item-assignment are ever used on it). -/
abbrev Rec' := List (String × Val)

/-- Association-list lookup underlying `dict.get`. -/
def rlookup : Rec' → String → Option Val
  | [], _ => Option.none
  | (k, v) :: t, key => if k = key then Option.some v else rlookup t key

/-- `r.get(key, default)`. -/
def rgetD (r : Rec') (key : String) (d : Val) : Val := (rlookup r key).getD d

/-- `r.get(key)` (default `None`). -/
def rget (r : Rec') (key : String) : Val := rgetD r key Val.none

/-- `r[key] = v` (prepending overrides earlier entries for `rlookup`). -/
def rset (r : Rec') (key : String) (v : Val) : Rec' := (key, v) :: r

/-! ### String helpers (modelling the Python `str` methods used) -/

/-- ASCII lower-casing of one character (`str.lower` restricted to ASCII). -/
def lowerChar (c : Char) : Char :=
  if 'A' ≤ c ∧ c ≤ 'Z' then Char.ofNat (c.toNat + 32) else c

/-- `s.lower()` (ASCII). -/
def pyLower (s : String) : String := String.mk (s.toList.map lowerChar)

/-- `s.strip()`: remove leading and trailing whitespace. -/
def pyStrip (s : String) : String :=
  String.mk (((s.toList.dropWhile Char.isWhitespace).reverse.dropWhile
    Char.isWhitespace).reverse)

/-- One fuel-indexed step list of `str.replace`: replace every (non-overlapping,
leftmost-first) occurrence of `pat` by `rep`. -/
def replaceGo (pat rep : List Char) : ℕ → List Char → List Char
  | 0, l => l
  | _ + 1, [] => []
  | fuel + 1, c :: rest =>
      if pat ≠ [] ∧ (c :: rest).take pat.length = pat then
        rep ++ replaceGo pat rep fuel ((c :: rest).drop pat.length)
      else
        c :: replaceGo pat rep fuel rest

/-- `s.replace(pat, rep)`. -/
def pyReplace (s pat rep : String) : String :=
  String.mk (replaceGo pat.toList rep.toList s.toList.length s.toList)

/-- Does `s` start with the three characters `202`?  (`str.startswith("202")`.) -/
def starts202 (s : String) : Bool := decide (s.toList.take 3 = ['2', '0', '2'])

/-! ### `float()` string parsing -/

/-- Numeric value of a digit list (most significant first). -/
def digitsToNat (l : List Char) : ℕ := l.foldl (fun a c => 10 * a + (c.toNat - 48)) 0

/-- `10 ^ z` over `ℚ` for an integer exponent. -/
def qpow10 (z : ℤ) : ℚ := if 0 ≤ z then (10 : ℚ) ^ z.toNat else 1 / (10 : ℚ) ^ (-z).toNat

/-- Parse an unsigned mantissa `digits [. digits]` (at least one digit);
returns its value and the unconsumed rest. -/
def parseMantissa (cs : List Char) : Option (ℚ × List Char) :=
  let ip := cs.takeWhile Char.isDigit
  let r1 := cs.dropWhile Char.isDigit
  match r1 with
  | '.' :: r2 =>
      let fp := r2.takeWhile Char.isDigit
      let r3 := r2.dropWhile Char.isDigit
      if ip.isEmpty ∧ fp.isEmpty then Option.none
      else Option.some ((digitsToNat ip : ℚ) + (digitsToNat fp : ℚ) / (10 : ℚ) ^ fp.length, r3)
  | _ => if ip.isEmpty then Option.none else Option.some ((digitsToNat ip : ℚ), r1)

/-- Parse the optional exponent suffix; must consume the whole rest.
Returns the multiplier `10 ^ e`. -/
def parseExpPart (cs : List Char) : Option ℚ :=
  match cs with
  | [] => Option.some 1
  | 'e' :: rest =>
      let sgnRest : ℤ × List Char :=
        match rest with
        | '-' :: t => (-1, t)
        | '+' :: t => (1, t)
        | t => (1, t)
      let ds := sgnRest.2.takeWhile Char.isDigit
      let r := sgnRest.2.dropWhile Char.isDigit
      if ds.isEmpty ∨ ¬r.isEmpty then Option.none
      else Option.some (qpow10 (sgnRest.1 * (digitsToNat ds : ℤ)))
  | 'E' :: rest =>
      let sgnRest : ℤ × List Char :=
        match rest with
        | '-' :: t => (-1, t)
        | '+' :: t => (1, t)
        | t => (1, t)
      let ds := sgnRest.2.takeWhile Char.isDigit
      let r := sgnRest.2.dropWhile Char.isDigit
      if ds.isEmpty ∨ ¬r.isEmpty then Option.none
      else Option.some (qpow10 (sgnRest.1 * (digitsToNat ds : ℤ)))
  | _ => Option.none

/-- Python `float(s)` on a string: `none` models a raised `ValueError`. -/
def pyFloat? (s : String) : Option ℚ :=
  let cs := (pyStrip s).toList
  let sgnCs : ℚ × List Char :=
    match cs with
    | '-' :: t => (-1, t)
    | '+' :: t => (1, t)
    | t => (1, t)
  match parseMantissa sgnCs.2 with
  | Option.none => Option.none
  | Option.some mr =>
      match parseExpPart mr.2 with
      | Option.none => Option.none
      | Option.some mult => Option.some (sgnCs.1 * mr.1 * mult)

/-! ### The three value normalizers -/

/-- `sync_smartsheet.py` / `api/smartsheet.py` `parse_cost`: numeric values
pass through (`bool` is an `int` in Python); strings are stripped of every
character that is not an ASCII digit or `.` and parsed; failures give `0`. -/
def parse_cost (v : Val) : ℚ :=
  match v with
  | Val.none => 0
  | Val.num q => q
  | Val.bool b => if b then 1 else 0
  | Val.str s =>
      let cleaned := String.mk (s.toList.filter (fun c => c.isDigit || c = '.'))
      if cleaned.isEmpty then 0 else (pyFloat? cleaned).getD 0

/-- `sync_smartsheet.py` / `api/smartsheet.py` `parse_days`: numeric values
pass through; strings are parsed directly; failures give `0`. -/
def parse_days (v : Val) : ℚ :=
  match v with
  | Val.none => 0
  | Val.num q => q
  | Val.bool b => if b then 1 else 0
  | Val.str s => (pyFloat? s).getD 0

/-- The cleaning chain of `safe_float`: drop `,`, then spaces, then the
substrings `SAR` and `USD`, in that order. -/
def safeFloatClean (s : String) : String :=
  pyReplace (pyReplace (pyReplace (pyReplace s "," "") " " "") "SAR" "") "USD" ""

/-- `sync_sla.py` / `sync_logistics.py` `safe_float`: numeric values pass
through; strings are cleaned by `safeFloatClean` and parsed; empty cleaned
string or parse failure gives `0`. -/
def safe_float (v : Val) : ℚ :=
  match v with
  | Val.none => 0
  | Val.num q => q
  | Val.bool b => if b then 1 else 0
  | Val.str s =>
      let cleaned := safeFloatClean s
      if cleaned.isEmpty then 0 else (pyFloat? cleaned).getD 0

/-! ### Dict / Counter / sorting models

`collections.Counter` over an iterable yields keys in first-encounter order,
each with its number of occurrences; a `dict` accumulated by
`d[k] = d.get(k, 0) + x` yields keys in first-encounter order, each with the
sum of its contributions.  `sorted(..., key=itemgetter(1), reverse=True)` and
`Counter.most_common(n)` are stable descending sorts by the second component
(ties keep input order), truncated by slicing.  The recursions are indexed by
an explicit fuel (the list length) so that they reduce by kernel evaluation.
-/

/-- Fuel-indexed body of `pyCounter`. -/
def pyCounterGo {α : Type} [DecidableEq α] : ℕ → List α → List (α × ℕ)
  | 0, _ => []
  | _ + 1, [] => []
  | fuel + 1, x :: t =>
      (x, 1 + t.count x) :: pyCounterGo fuel (t.filter (fun y => decide (y ≠ x)))

/-- `collections.Counter(xs)` as an association list in first-encounter key
order. -/
def pyCounter {α : Type} [DecidableEq α] (xs : List α) : List (α × ℕ) :=
  pyCounterGo xs.length xs

/-- Fuel-indexed body of `dictSum`. -/
def dictSumGo {α : Type} [DecidableEq α] : ℕ → List (α × ℚ) → List (α × ℚ)
  | 0, _ => []
  | _ + 1, [] => []
  | fuel + 1, (k, q) :: t =>
      (k, q + ((t.filter (fun p => decide (p.1 = k))).map (fun p => p.2)).sum) ::
        dictSumGo fuel (t.filter (fun p => decide (p.1 ≠ k)))

/-- A dict accumulated by `d[k] = d.get(k, 0) + x` over a list of `(k, x)`
contributions, as an association list in first-encounter key order. -/
def dictSum {α : Type} [DecidableEq α] (ps : List (α × ℚ)) : List (α × ℚ) :=
  dictSumGo ps.length ps

/-- Fuel-indexed body of `firstDedup`. -/
def firstDedupGo {α : Type} [DecidableEq α] : ℕ → List α → List α
  | 0, _ => []
  | _ + 1, [] => []
  | fuel + 1, x :: t => x :: firstDedupGo fuel (t.filter (fun y => decide (y ≠ x)))

/-- The distinct elements of a list in first-encounter order (the key order of
a Python `set`/`dict` built by insertion; where the final order is produced by
`sorted(...)`, only membership matters). -/
def firstDedup {α : Type} [DecidableEq α] (xs : List α) : List α :=
  firstDedupGo xs.length xs

/-- Stable descending insertion by second component: the new element goes in
front of the first element it is `≥` on, hence after all earlier-placed equal
elements.  This reproduces Python's stable `sorted(..., reverse=True)`. -/
def insertDesc {α β : Type} [LinearOrder β] (x : α × β) :
    List (α × β) → List (α × β)
  | [] => [x]
  | y :: t => if y.2 ≤ x.2 then x :: y :: t else y :: insertDesc x t

/-- Stable descending sort by second component (`sorted(items, key=λp. p[1],
reverse=True)`, also `Counter.most_common` with an argument). -/
def sortDesc {α β : Type} [LinearOrder β] (l : List (α × β)) : List (α × β) :=
  l.foldr insertDesc []

/-- `Counter.most_common(n)` / `sorted(...)[:n]`: stable descending top-`n`. -/
def most_common {α β : Type} [LinearOrder β] (n : ℕ) (l : List (α × β)) :
    List (α × β) :=
  (sortDesc l).take n

/-- Stable ascending insertion for a boolean `≤` test. -/
def insertAscBy {α : Type} (le : α → α → Bool) (x : α) : List α → List α
  | [] => [x]
  | y :: t => if le x y then x :: y :: t else y :: insertAscBy le x t

/-- Stable ascending sort (`sorted(xs)`) for a boolean `≤` test. -/
def sortAscBy {α : Type} (le : α → α → Bool) (l : List α) : List α :=
  l.foldr (insertAscBy le) []

/-- Lexicographic `≤` on character lists by code point (Python `str` order). -/
def charListLe : List Char → List Char → Bool
  | [], _ => true
  | _ :: _, [] => false
  | a :: as, b :: bs => if a = b then charListLe as bs else decide (a.toNat < b.toNat)

/-- Python `≤` on strings. -/
def strLe (a b : String) : Bool := charListLe a.toList b.toList

/-- An arbitrary total comparison on `Val` used to model `sorted` over raw
cell values: Python's `sorted` only succeeds on same-type values, and the
claims below use only the membership of such lists, never their order. -/
def valLe : Val → Val → Bool
  | Val.str a, Val.str b => strLe a b
  | Val.num a, Val.num b => decide (a ≤ b)
  | Val.bool a, Val.bool b => !a || b
  | Val.none, _ => true
  | Val.str _, Val.num _ => false
  | Val.str _, _ => true
  | Val.num _, Val.none => false
  | Val.num _, _ => true
  | Val.bool _, Val.none => false
  | Val.bool _, Val.str _ => false
  | Val.bool _, Val.num _ => false

/-- Python `round(q, n)` (round-half-to-even on the scaled value; the binary
floating-point artefacts of CPython's `round` are outside the model). -/
def pyRound (q : ℚ) (n : ℕ) : ℚ :=
  let m := q * (10 : ℚ) ^ n
  let fl := ⌊m⌋
  let f := m - fl
  let r : ℤ :=
    if f < 1/2 then fl
    else if 1/2 < f then fl + 1
    else if fl % 2 = 0 then fl else fl + 1
  (r : ℚ) / (10 : ℚ) ^ n

/-! ### `sync_sla.py`: `process_sheet` -/

/-- A sheet column (`id`, `title`). -/
structure Column where
  id : ℕ
  title : String

/-- A sheet cell (`columnId`, `value`, `displayValue`); a missing entry is
`Val.none`, as produced by `cell.get(...)`. -/
structure Cell where
  columnId : ℕ
  value : Val
  displayValue : Val

/-- A sheet snapshot: columns and rows of cells. -/
structure Sheet where
  columns : List Column
  rows : List (List Cell)

/-- `COLUMN_MAPPINGS` of `sync_sla.py` / `sync_logistics.py`. -/
def COLUMN_MAPPINGS : List (String × String) :=
  [("#", "serial_no"), ("Job Order NO.", "job_order_no"), ("Company", "company"),
   ("Project Name", "project"), ("Rqstr Name", "requester"), ("Rqst Date", "request_date"),
   ("supplier", "supplier"), ("EQUIPMENT 1", "equipment_1"), ("price1", "price_1"),
   ("EQUIPMENT 2", "equipment_2"), ("Price2", "price_2"), ("EQUIPMENT 3", "equipment_3"),
   ("Price3", "price_3"), ("EQUIPMENT 4", "equipment_4"), ("Price4", "price_4"),
   ("EQUIPMENT 5", "equipment_5"), ("price5", "price_5"), ("Type of Rent", "rent_type"),
   ("Total Amount", "total_amount"), ("Act Date2", "actual_date"), ("Duration", "duration"),
   ("Status", "status"), ("Pending with", "pending_with"), ("Remarks", "remarks")]

/-- Generic association-list lookup (Python `dict` membership/indexing). -/
def alookup {κ α : Type} [DecidableEq κ] : List (κ × α) → κ → Option α
  | [], _ => Option.none
  | (k, v) :: t, key => if k = key then Option.some v else alookup t key

/-- The Column Mapper: column id → canonical field name, for columns whose
title appears in the catalog. -/
def colMap (sheet : Sheet) : List (ℕ × String) :=
  sheet.columns.filterMap (fun c => (alookup COLUMN_MAPPINGS c.title).map (fun f => (c.id, f)))

/-- `cell.get("value") or cell.get("displayValue")`. -/
def cellVal (c : Cell) : Val := pyOr c.value c.displayValue

/-- Build one record from a row's cells (`record[col_map[col_id]] = value`
when the column is mapped and the resolved value is not `None`). -/
def buildRecord (cmap : List (ℕ × String)) (cells : List Cell) : Rec' :=
  cells.foldl
    (fun r c =>
      match alookup cmap c.columnId with
      | Option.some f => if cellVal c ≠ Val.none then rset r f (cellVal c) else r
      | Option.none => r)
    []

/-- `sync_sla.py` `process_sheet`: rows to records, keeping a record only if
its `job_order_no` or `project` is truthy. -/
def process_sheet (sheet : Sheet) : List Rec' :=
  (sheet.rows.map (buildRecord (colMap sheet))).filter
    (fun r => truthy (rget r "job_order_no") || truthy (rget r "project"))

/-! ### `sync_sla.py`: `calculate_sla_metrics` -/

/-- The status synonym mapping of `calculate_sla_metrics` (applied to the
stripped, lower-cased status string). -/
def normStatusCore (s : String) : String :=
  if s = "done" ∨ s = "completed" ∨ s = "complete" then "Done"
  else if s = "in progress" ∨ s = "inprogress" ∨ s = "pending" ∨ s = "under process" ∨
      s = "waiting for quotation" then "In Progress"
  else if s ≠ "" then "Not Done"
  else "In Progress"

/-- The status written by the normalization pass of `calculate_sla_metrics`
for a record (`str(r.get("status", "")).strip().lower()` then the synonym
map). -/
def slaStatusOf (r : Rec') : Val :=
  Val.str (normStatusCore (pyLower (pyStrip (pyStr (rgetD r "status" (Val.str ""))))))

/-- The in-place status normalization `r["status"] = ...`. -/
def slaStatusUpd (r : Rec') : Rec' := rset r "status" (slaStatusOf r)

/-- Sum of the five `safe_float`-parsed price slots. -/
def slaPriceSum (r : Rec') : ℚ :=
  safe_float (rget r "price_1") + safe_float (rget r "price_2") +
    safe_float (rget r "price_3") + safe_float (rget r "price_4") +
    safe_float (rget r "price_5")

/-- The in-place amount pass: a falsy `total_amount` is replaced by the price
sum, a truthy one is re-parsed by `safe_float`. -/
def slaAmountUpd (r : Rec') : Rec' :=
  if truthy (rget r "total_amount") then
    rset r "total_amount" (Val.num (safe_float (rget r "total_amount")))
  else
    rset r "total_amount" (Val.num (slaPriceSum r))

/-- The record list after both in-place passes of `calculate_sla_metrics`. -/
def slaRecords (records : List Rec') : List Rec' :=
  (records.map slaStatusUpd).map slaAmountUpd

/-- `r.get("status") == s`. -/
def statusIs (r : Rec') (s : String) : Bool := pyEq (rget r "status") (Val.str s)

/-- Numeric content of a value in a Python arithmetic context.  In the places
this is used the pipeline has already stored a number (a non-numeric operand
would raise in Python). -/
def numOf : Val → ℚ
  | Val.num q => q
  | Val.bool b => if b then 1 else 0
  | _ => 0

def slaDone (records : List Rec') : ℕ :=
  ((slaRecords records).filter (fun r => statusIs r "Done")).length

def slaInProgress (records : List Rec') : ℕ :=
  ((slaRecords records).filter (fun r => statusIs r "In Progress")).length

def slaNotDone (records : List Rec') : ℕ :=
  ((slaRecords records).filter (fun r => statusIs r "Not Done")).length

def slaTotalAmount (records : List Rec') : ℚ :=
  ((slaRecords records).map (fun r => numOf (rgetD r "total_amount" (Val.num 0)))).sum

/-- `durations`: the `safe_float` values of records whose raw duration is
truthy and parses to a positive number. -/
def slaDurations (records : List Rec') : List ℚ :=
  ((slaRecords records).filter
      (fun r => truthy (rget r "duration") && decide (0 < safe_float (rget r "duration")))).map
    (fun r => safe_float (rget r "duration"))

def qLe (a b : ℚ) : Bool := decide (a ≤ b)

def slaSortedDurations (records : List Rec') : List ℚ :=
  sortAscBy qLe (slaDurations records)

def slaAvgDuration (records : List Rec') : ℚ :=
  if slaDurations records ≠ [] then
    (slaDurations records).sum / ((slaDurations records).length : ℚ)
  else 0

/-- `sorted_durations[len(sorted_durations) // 2]`. -/
def slaMedianDuration (records : List Rec') : ℚ :=
  if slaDurations records ≠ [] then
    (slaSortedDurations records).getD ((slaDurations records).length / 2) 0
  else 0

/-- `sorted_durations[min(int(len * 0.9), len - 1)]` (`int(n * 0.9)` equals
`⌊9n/10⌋` for every list length reachable here). -/
def slaP90Duration (records : List Rec') : ℚ :=
  if slaDurations records ≠ [] then
    (slaSortedDurations records).getD
      (min (9 * (slaDurations records).length / 10) ((slaDurations records).length - 1)) 0
  else 0

/-- `(len([d for d in durations if d <= 3]) / len(durations)) * 100`. -/
def slaOnTimeRate (records : List Rec') : ℚ :=
  if slaDurations records ≠ [] then
    (((slaDurations records).filter (fun d => decide (d ≤ 3))).length : ℚ) /
        ((slaDurations records).length : ℚ) * 100
  else 0

def slaCompletionRate (records : List Rec') : ℚ :=
  if 0 < records.length then (slaDone records : ℚ) / (records.length : ℚ) * 100 else 0

/-- `Counter(r.get("company", "Unknown") for r in records if r.get("company"))`. -/
def slaCompanyItems (records : List Rec') : List (Val × ℕ) :=
  pyCounter
    (((slaRecords records).filter (fun r => truthy (rget r "company"))).map
      (fun r => rgetD r "company" (Val.str "Unknown")))

/-- Guard of the supplier Counter: truthy and
`not str(r.get("supplier", "")).startswith("202")`. -/
def slaSupplierCountOk (r : Rec') : Bool :=
  truthy (rget r "supplier") && !starts202 (pyStr (rgetD r "supplier" (Val.str "")))

/-- Guard of the supplier amount loop: truthy and
`not str(supplier).startswith("202")`. -/
def slaSupplierAmountOk (r : Rec') : Bool :=
  truthy (rget r "supplier") && !starts202 (pyStr (rget r "supplier"))

def slaSupplierCountItems (records : List Rec') : List (Val × ℕ) :=
  pyCounter (((slaRecords records).filter slaSupplierCountOk).map (fun r => rget r "supplier"))

def slaSupplierAmountItems (records : List Rec') : List (Val × ℚ) :=
  dictSum
    (((slaRecords records).filter slaSupplierAmountOk).map
      (fun r => (rget r "supplier", numOf (rgetD r "total_amount" (Val.num 0)))))

def slaProjectCountItems (records : List Rec') : List (Val × ℕ) :=
  pyCounter
    (((slaRecords records).filter (fun r => truthy (rget r "project"))).map
      (fun r => rget r "project"))

def slaProjectAmountItems (records : List Rec') : List (Val × ℚ) :=
  dictSum
    (((slaRecords records).filter (fun r => truthy (rget r "project"))).map
      (fun r => (rget r "project", numOf (rgetD r "total_amount" (Val.num 0)))))

/-- The five equipment/price slot field-name pairs (`equipment_{i}`,
`price_{i}`). -/
def eqSlots : List (String × String) :=
  [("equipment_1", "price_1"), ("equipment_2", "price_2"), ("equipment_3", "price_3"),
   ("equipment_4", "price_4"), ("equipment_5", "price_5")]

def isStrVal : Val → Bool
  | Val.str _ => true
  | _ => false

/-- The `(equipment, price)` contributions of one record: slots whose
equipment value is truthy and a string (`if eq and isinstance(eq, str)`). -/
def equipPairs (r : Rec') : List (Val × ℚ) :=
  eqSlots.filterMap
    (fun slot =>
      let eq := rget r slot.1
      if truthy eq && isStrVal eq then Option.some (eq, safe_float (rget r slot.2))
      else Option.none)

def slaEquipList (records : List Rec') : List (Val × ℚ) :=
  ((slaRecords records).map equipPairs).flatten

def slaEquipCountItems (records : List Rec') : List (Val × ℕ) :=
  pyCounter ((slaEquipList records).map (fun p => p.1))

def slaEquipAmountItems (records : List Rec') : List (Val × ℚ) :=
  dictSum (slaEquipList records)

/-- The month key of a record for the trend: the first 7 characters of the
string form of a truthy `request_date`. -/
def slaMonthOf (r : Rec') : Option String :=
  let d := rget r "request_date"
  if truthy d then Option.some (String.mk ((pyStr d).toList.take 7)) else Option.none

def slaMonthPairs (records : List Rec') : List (String × Rec') :=
  (slaRecords records).filterMap (fun r => (slaMonthOf r).map (fun m => (m, r)))

/-- The month keys sorted ascending (`sorted(monthly_data.items())`; keys are
distinct, so the tuple comparison only ever compares keys). -/
def slaMonths (records : List Rec') : List String :=
  sortAscBy strLe (firstDedup ((slaMonthPairs records).map (fun p => p.1)))

/-- One row of the monthly trend of `calculate_sla_metrics`. -/
structure MonthRow where
  month : String
  orders : ℕ
  amount : ℚ
  done : ℕ
  completion_rate : ℚ
deriving DecidableEq, Repr

def slaMonthlyTrend (records : List Rec') : List MonthRow :=
  (slaMonths records).map
    (fun m =>
      let grp := ((slaMonthPairs records).filter (fun p => decide (p.1 = m))).map (fun p => p.2)
      let doneCnt := (grp.filter (fun r => statusIs r "Done")).length
      { month := m
        orders := grp.length
        amount := (grp.map (fun r => numOf (rgetD r "total_amount" (Val.num 0)))).sum
        done := doneCnt
        completion_rate :=
          if 0 < grp.length then pyRound ((doneCnt : ℚ) / (grp.length : ℚ) * 100) 1 else 0 })

/-- The `summary` object of `calculate_sla_metrics` (`last_update` omitted:
wall clock). -/
structure SlaSummary where
  total_orders : ℕ
  done_orders : ℕ
  in_progress_orders : ℕ
  not_done_orders : ℕ
  open_orders : ℕ
  on_time_rate : ℚ
  completion_rate : ℚ
  total_amount : ℚ
  avg_duration : ℚ
  median_duration : ℚ
  p90_duration : ℚ
deriving DecidableEq, Repr

/-- The full report of `calculate_sla_metrics`. -/
structure SlaReport where
  summary : SlaSummary
  status_done : ℕ
  status_in_progress : ℕ
  status_not_done : ℕ
  company_breakdown : List (Val × ℕ)
  top_suppliers : List (Val × ℕ)
  suppliers_by_amount : List (Val × ℚ)
  top_projects_by_orders : List (Val × ℕ)
  top_projects_by_amount : List (Val × ℚ)
  equipment_distribution : List (Val × ℕ)
  equipment_by_amount : List (Val × ℚ)
  monthly_trend : List MonthRow
deriving DecidableEq, Repr

/-- `sync_sla.py` `calculate_sla_metrics`. -/
def calculate_sla_metrics (records : List Rec') : SlaReport :=
  { summary :=
      { total_orders := records.length
        done_orders := slaDone records
        in_progress_orders := slaInProgress records
        not_done_orders := slaNotDone records
        open_orders := slaInProgress records + slaNotDone records
        on_time_rate := pyRound (slaOnTimeRate records) 1
        completion_rate := pyRound (slaCompletionRate records) 1
        total_amount := pyRound (slaTotalAmount records) 2
        avg_duration := pyRound (slaAvgDuration records) 2
        median_duration := pyRound (slaMedianDuration records) 1
        p90_duration := pyRound (slaP90Duration records) 1 }
    status_done := slaDone records
    status_in_progress := slaInProgress records
    status_not_done := slaNotDone records
    company_breakdown := slaCompanyItems records
    top_suppliers := most_common 10 (slaSupplierCountItems records)
    suppliers_by_amount := most_common 10 (slaSupplierAmountItems records)
    top_projects_by_orders := most_common 20 (slaProjectCountItems records)
    top_projects_by_amount := most_common 20 (slaProjectAmountItems records)
    equipment_distribution := most_common 15 (slaEquipCountItems records)
    equipment_by_amount := most_common 15 (slaEquipAmountItems records)
    monthly_trend := slaMonthlyTrend records }

/-! ### `sync_smartsheet.py` / `api/smartsheet.py`: `calculate_sla_kpis` -/

/-- `sum(parse_days(...)) / len(...) if ... else 0` average pattern. -/
def qAvg (l : List ℚ) : ℚ := if l ≠ [] then l.sum / (l.length : ℚ) else 0

def kpiDone (orders : List Rec') : ℕ :=
  (orders.filter (fun o => pyEq (rget o "performed") (Val.str "Yes") &&
    truthy (rget o "completion_date"))).length

def kpiInProgress (orders : List Rec') : ℕ :=
  (orders.filter (fun o => pyEq (rget o "performed") (Val.str "Yes") &&
    !truthy (rget o "completion_date"))).length

/-- `not_done = total - done - in_progress` (Python integer arithmetic). -/
def kpiNotDone (orders : List Rec') : ℤ :=
  (orders.length : ℤ) - kpiDone orders - kpiInProgress orders

/-- `completion_times`: `parse_days` of every truthy `completion_days` (note:
no positivity filter — garbage parses contribute `0`). -/
def kpiCompletionTimes (orders : List Rec') : List ℚ :=
  (orders.filter (fun o => truthy (rget o "completion_days"))).map
    (fun o => parse_days (rget o "completion_days"))

def kpiSortedTimes (orders : List Rec') : List ℚ :=
  sortAscBy qLe (kpiCompletionTimes orders)

def kpiMedianDuration (orders : List Rec') : ℚ :=
  if kpiSortedTimes orders ≠ [] then
    (kpiSortedTimes orders).getD ((kpiSortedTimes orders).length / 2) 0
  else 0

/-- `sorted_times[int(len * 0.9)]` — no clamp (the index is always in range
since `⌊9n/10⌋ < n` for `n ≥ 1`). -/
def kpiP90Duration (orders : List Rec') : ℚ :=
  if kpiSortedTimes orders ≠ [] then
    (kpiSortedTimes orders).getD (9 * (kpiSortedTimes orders).length / 10) 0
  else 0

def kpiOnTimeRate (orders : List Rec') : ℚ :=
  if kpiCompletionTimes orders ≠ [] then
    (((kpiCompletionTimes orders).filter (fun t => decide (t ≤ 3))).length : ℚ) /
        ((kpiCompletionTimes orders).length : ℚ) * 100
  else 0

def kpiTotalAmount (orders : List Rec') : ℚ :=
  ((orders.filter (fun o => truthy (rget o "cost"))).map
    (fun o => parse_cost (rget o "cost"))).sum

def kpiOpenOrders (orders : List Rec') : ℕ :=
  (orders.filter (fun o => !truthy (rget o "completion_date"))).length

/-- `Counter(o.get('supplier', 'Unknown') for o in orders if o.get('supplier'))`. -/
def kpiSupplierCountItems (orders : List Rec') : List (Val × ℕ) :=
  pyCounter
    ((orders.filter (fun o => truthy (rget o "supplier"))).map
      (fun o => rgetD o "supplier" (Val.str "Unknown")))

/-- `sup = o.get('supplier', 'Unknown'); if sup: costs[sup] += parse_cost(...)`
— an absent supplier is bucketed under `Unknown` here (the default is truthy),
while a present falsy one is skipped. -/
def kpiSupplierCostItems (orders : List Rec') : List (Val × ℚ) :=
  dictSum
    ((orders.filter (fun o => truthy (rgetD o "supplier" (Val.str "Unknown")))).map
      (fun o => (rgetD o "supplier" (Val.str "Unknown"), parse_cost (rget o "cost"))))

def kpiProjectCountItems (orders : List Rec') : List (Val × ℕ) :=
  pyCounter
    ((orders.filter (fun o => truthy (rget o "project"))).map
      (fun o => rgetD o "project" (Val.str "Unknown")))

/-- The project cost dict has no guard at all: every order contributes, absent
projects under `Unknown`. -/
def kpiProjectCostItems (orders : List Rec') : List (Val × ℚ) :=
  dictSum (orders.map (fun o => (rgetD o "project" (Val.str "Unknown"), parse_cost (rget o "cost"))))

def kpiEquipCountItems (orders : List Rec') : List (Val × ℕ) :=
  pyCounter
    ((orders.filter (fun o => truthy (rget o "equipment_type"))).map
      (fun o => rgetD o "equipment_type" (Val.str "Unknown")))

def kpiEquipCostItems (orders : List Rec') : List (Val × ℚ) :=
  dictSum
    ((orders.filter (fun o => truthy (rgetD o "equipment_type" (Val.str "Unknown")))).map
      (fun o => (rgetD o "equipment_type" (Val.str "Unknown"), parse_cost (rget o "cost"))))

/-- Month key for the KPI trend: first 7 characters of the string form of a
truthy `job_order_date` (the `isinstance` branch makes `str(...)` a no-op for
strings). -/
def kpiMonthOf (o : Rec') : Option String :=
  let d := rgetD o "job_order_date" (Val.str "")
  if truthy d then Option.some (String.mk ((pyStr d).toList.take 7)) else Option.none

def kpiMonthPairs (orders : List Rec') : List (String × Rec') :=
  orders.filterMap (fun o => (kpiMonthOf o).map (fun m => (m, o)))

def kpiMonths (orders : List Rec') : List String :=
  sortAscBy strLe (firstDedup ((kpiMonthPairs orders).map (fun p => p.1)))

/-- One row of the KPI monthly trend (`{month, orders, amount}`). -/
structure KpiMonthRow where
  month : String
  orders : ℕ
  amount : ℚ
deriving DecidableEq, Repr

def kpiMonthlyTrend (orders : List Rec') : List KpiMonthRow :=
  (kpiMonths orders).map
    (fun m =>
      let grp := ((kpiMonthPairs orders).filter (fun p => decide (p.1 = m))).map (fun p => p.2)
      { month := m
        orders := grp.length
        amount := (grp.map (fun o => parse_cost (rget o "cost"))).sum })

/-- The `summary` object of `calculate_sla_kpis` (`last_update` omitted). -/
structure KpiSummary where
  total_orders : ℕ
  done_orders : ℕ
  in_progress_orders : ℕ
  not_done_orders : ℤ
  on_time_rate : ℚ
  total_amount : ℚ
  avg_duration : ℚ
  median_duration : ℚ
  p90_duration : ℚ
  open_orders : ℕ
deriving DecidableEq, Repr

/-- The report of `calculate_sla_kpis` (the duplicated output keys that
repeat another field — `projects_amounts`, `equipment_count` — are kept as
the same value once). -/
structure KpiReport where
  summary : KpiSummary
  status_done : ℕ
  status_in_progress : ℕ
  status_not_done : ℤ
  top_suppliers : List (Val × ℕ)
  suppliers : List (Val × ℚ)
  top_projects : List (Val × ℚ)
  projects_orders : List (Val × ℕ)
  equipment_distribution : List (Val × ℕ)
  equipment_cost : List (Val × ℚ)
  monthly_trend : List KpiMonthRow
deriving DecidableEq, Repr

/-- `sync_smartsheet.py` / `api/smartsheet.py` `calculate_sla_kpis`. -/
def calculate_sla_kpis (orders : List Rec') : KpiReport :=
  { summary :=
      { total_orders := orders.length
        done_orders := kpiDone orders
        in_progress_orders := kpiInProgress orders
        not_done_orders := kpiNotDone orders
        on_time_rate := pyRound (kpiOnTimeRate orders) 2
        total_amount := pyRound (kpiTotalAmount orders) 2
        avg_duration := pyRound (qAvg (kpiCompletionTimes orders)) 2
        median_duration := kpiMedianDuration orders
        p90_duration := kpiP90Duration orders
        open_orders := kpiOpenOrders orders }
    status_done := kpiDone orders
    status_in_progress := kpiInProgress orders
    status_not_done := kpiNotDone orders
    top_suppliers := most_common 10 (kpiSupplierCountItems orders)
    suppliers := most_common 10 (kpiSupplierCostItems orders)
    top_projects := most_common 20 (kpiProjectCostItems orders)
    projects_orders := most_common 20 (kpiProjectCountItems orders)
    equipment_distribution := most_common 15 (kpiEquipCountItems orders)
    equipment_cost := most_common 15 (kpiEquipCostItems orders)
    monthly_trend := kpiMonthlyTrend orders }

/-! ### `sync_smartsheet.py` / `api/smartsheet.py`: `calculate_payments_kpis` -/

def invoiceOrders (orders : List Rec') : List Rec' :=
  orders.filter (fun o => pyEq (rget o "invoice_applicable") (Val.str "Yes"))

def payPaid (orders : List Rec') : ℕ :=
  ((invoiceOrders orders).filter
    (fun o => pyEq (rget o "payment_status") (Val.str "Paid"))).length

/-- `o.get('payment_status') in ['Pending Approval', 'Pending', 'Under Review']`. -/
def payPendingOk (o : Rec') : Bool :=
  pyEq (rget o "payment_status") (Val.str "Pending Approval") ||
    pyEq (rget o "payment_status") (Val.str "Pending") ||
    pyEq (rget o "payment_status") (Val.str "Under Review")

def payPending (orders : List Rec') : ℕ :=
  ((invoiceOrders orders).filter payPendingOk).length

/-- `other = total - paid - pending` (Python integer arithmetic). -/
def payOther (orders : List Rec') : ℤ :=
  ((invoiceOrders orders).length : ℤ) - payPaid orders - payPending orders

/-- `parse_days` list of a truthy day-count field over the invoice orders. -/
def payDaysList (orders : List Rec') (field : String) : List ℚ :=
  ((invoiceOrders orders).filter (fun o => truthy (rget o field))).map
    (fun o => parse_days (rget o field))

def payTotalAmount (orders : List Rec') : ℚ :=
  (((invoiceOrders orders).filter (fun o => truthy (rget o "cost"))).map
    (fun o => parse_cost (rget o "cost"))).sum

def payRate (orders : List Rec') : ℚ :=
  if (invoiceOrders orders).length ≠ 0 then
    (payPaid orders : ℚ) / ((invoiceOrders orders).length : ℚ) * 100
  else 0

/-- `Counter(o.get(field, 'Unknown') for o in invoice_orders if o.get(field))`. -/
def payCountItems (orders : List Rec') (field : String) : List (Val × ℕ) :=
  pyCounter
    (((invoiceOrders orders).filter (fun o => truthy (rget o field))).map
      (fun o => rgetD o field (Val.str "Unknown")))

def payMonthPairs (orders : List Rec') : List (String × Rec') :=
  (invoiceOrders orders).filterMap (fun o => (kpiMonthOf o).map (fun m => (m, o)))

def payMonths (orders : List Rec') : List String :=
  sortAscBy strLe (firstDedup ((payMonthPairs orders).map (fun p => p.1)))

def payMonthlyTrend (orders : List Rec') : List KpiMonthRow :=
  (payMonths orders).map
    (fun m =>
      let grp := ((payMonthPairs orders).filter (fun p => decide (p.1 = m))).map (fun p => p.2)
      { month := m
        orders := grp.length
        amount := (grp.map (fun o => parse_cost (rget o "cost"))).sum })

/-- The `summary` object of `calculate_payments_kpis` (`last_update` omitted). -/
structure PaySummary where
  total_invoices : ℕ
  paid_invoices : ℕ
  pending_invoices : ℕ
  other_status : ℤ
  total_amount : ℚ
  avg_completion_days : ℚ
  avg_payment_cycle : ℚ
  avg_invoice_receive : ℚ
  payment_rate : ℚ
deriving DecidableEq, Repr

/-- The report of `calculate_payments_kpis`. -/
structure PayReport where
  summary : PaySummary
  payment_status_paid : ℕ
  payment_status_pending : ℕ
  payment_status_other : ℤ
  suppliers : List (Val × ℕ)
  projects : List (Val × ℕ)
  equipment_requested : List (Val × ℕ)
  requesters : List (Val × ℕ)
  monthly_trend : List KpiMonthRow
deriving DecidableEq, Repr

/-- `sync_smartsheet.py` `calculate_payments_kpis`. -/
def calculate_payments_kpis (orders : List Rec') : PayReport :=
  { summary :=
      { total_invoices := (invoiceOrders orders).length
        paid_invoices := payPaid orders
        pending_invoices := payPending orders
        other_status := payOther orders
        total_amount := pyRound (payTotalAmount orders) 2
        avg_completion_days := pyRound (qAvg (payDaysList orders "completion_days")) 1
        avg_payment_cycle := pyRound (qAvg (payDaysList orders "payment_cycle_days")) 1
        avg_invoice_receive := pyRound (qAvg (payDaysList orders "invoice_receive_days")) 1
        payment_rate := pyRound (payRate orders) 1 }
    payment_status_paid := payPaid orders
    payment_status_pending := payPending orders
    payment_status_other := payOther orders
    suppliers := most_common 15 (payCountItems orders "supplier")
    projects := most_common 20 (payCountItems orders "project")
    equipment_requested := most_common 15 (payCountItems orders "equipment_type")
    requesters := most_common 10 (payCountItems orders "requester")
    monthly_trend := payMonthlyTrend orders }

/-! ### `sync_logistics.py`: `prepare_transportation_data`, `prepare_payments_data`
(`safe_float`, `process_sheet` and the amount pass are textually identical to
the `sync_sla.py` ones and share their embedding). -/

/-- The status normalization of `prepare_transportation_data`: a smaller
synonym table than `calculate_sla_metrics`, and any other non-empty status is
kept verbatim (`r["status"] = r.get("status", "In Progress")`). -/
def logStatusOf (r : Rec') : Val :=
  let s := pyLower (pyStrip (pyStr (rgetD r "status" (Val.str ""))))
  if s = "done" ∨ s = "completed" ∨ s = "complete" then Val.str "Done"
  else if s = "in progress" ∨ s = "inprogress" ∨ s = "pending" then Val.str "In Progress"
  else if s = "not done" ∨ s = "cancelled" ∨ s = "canceled" then Val.str "Not Done"
  else if s = "" then Val.str "In Progress"
  else rgetD r "status" (Val.str "In Progress")

def logStatusUpd (r : Rec') : Rec' := rset r "status" (logStatusOf r)

/-- Records after the two in-place passes of `prepare_transportation_data`
(amounts first, then statuses). -/
def transRecords (records : List Rec') : List Rec' :=
  (records.map slaAmountUpd).map logStatusUpd

/-- `sorted([str(p) for p in set(project values)])`: dedup raw values, then
string-convert, then sort. -/
def transProjectsFilter (records : List Rec') : List String :=
  sortAscBy strLe
    ((firstDedup
        (((transRecords records).filter (fun r => truthy (rget r "project"))).map
          (fun r => rget r "project"))).map pyStr)

/-- The supplier filter list: raw suppliers that are truthy and do not
string-start with `202`, dedup'd, string-converted, sorted. -/
def transSuppliersFilter (records : List Rec') : List String :=
  sortAscBy strLe
    ((firstDedup
        (((transRecords records).filter slaSupplierCountOk).map
          (fun r => rget r "supplier"))).map pyStr)

/-- The string equipment names of one record's five slots. -/
def equipNames (r : Rec') : List String :=
  eqSlots.filterMap
    (fun slot =>
      match rget r slot.1 with
      | Val.str s => if !s.isEmpty then Option.some s else Option.none
      | _ => Option.none)

def transEquipmentFilter (records : List Rec') : List String :=
  sortAscBy strLe (firstDedup (((transRecords records).map equipNames).flatten))

/-- `sorted(set(...))` over raw truthy values of a field. -/
def sortedValSet (rs : List Rec') (field : String) : List Val :=
  sortAscBy valLe (firstDedup ((rs.filter (fun r => truthy (rget r field))).map
    (fun r => rget r field)))

/-- The per-record projection written into `transportation_full_data.json`. -/
def transFormat (r : Rec') : Rec' :=
  [("job_order_no", rgetD r "job_order_no" (Val.str "")),
   ("company", rgetD r "company" (Val.str "")),
   ("project", rgetD r "project" (Val.str "Unknown")),
   ("requester", rgetD r "requester" (Val.str "")),
   ("request_date",
     if truthy (rget r "request_date") then Val.str (pyStr (rgetD r "request_date" (Val.str "")))
     else Val.str ""),
   ("supplier", rgetD r "supplier" (Val.str "Unknown")),
   ("equipment_1", rgetD r "equipment_1" (Val.str "")),
   ("equipment_2", rgetD r "equipment_2" (Val.str "")),
   ("equipment_3", rgetD r "equipment_3" (Val.str "")),
   ("equipment_4", rgetD r "equipment_4" (Val.str "")),
   ("equipment_5", rgetD r "equipment_5" (Val.str "")),
   ("rent_type", rgetD r "rent_type" (Val.str "Daily")),
   ("total_amount", rgetD r "total_amount" (Val.num 0)),
   ("actual_date",
     if truthy (rget r "actual_date") then Val.str (pyStr (rgetD r "actual_date" (Val.str "")))
     else Val.str ""),
   ("duration", Val.num (safe_float (rget r "duration"))),
   ("status", rgetD r "status" (Val.str "In Progress")),
   ("pending_with", rgetD r "pending_with" (Val.str "")),
   ("remarks", rgetD r "remarks" (Val.str ""))]

/-- The output of `prepare_transportation_data` (`metadata.last_update`
omitted). -/
structure TransportData where
  total_records : ℕ
  filters_projects : List String
  filters_suppliers : List String
  filters_equipment : List String
  filters_rent_types : List Val
  filters_status : List Val
  filters_companies : List Val
  records : List Rec'
deriving DecidableEq, Repr

/-- `sync_logistics.py` `prepare_transportation_data`. -/
def prepare_transportation_data (records : List Rec') : TransportData :=
  { total_records := (transRecords records).length
    filters_projects := transProjectsFilter records
    filters_suppliers := transSuppliersFilter records
    filters_equipment := transEquipmentFilter records
    filters_rent_types :=
      let rt := sortedValSet (transRecords records) "rent_type"
      if rt ≠ [] then rt else [Val.str "Daily", Val.str "Monthly", Val.str "Hourly"]
    filters_status :=
      let st := sortedValSet (transRecords records) "status"
      if st ≠ [] then st else [Val.str "Done", Val.str "In Progress", Val.str "Not Done"]
    filters_companies := sortedValSet (transRecords records) "company"
    records := (transRecords records).map transFormat }

/-- `payment_records = [r for r in records if safe_float(r.get("total_amount")) > 0]`. -/
def payRecordsLog (records : List Rec') : List Rec' :=
  records.filter (fun r => decide (0 < safe_float (rget r "total_amount")))

/-- Payment status derived from the job status (`done` → `Paid`, anything
else → `Pending`). -/
def logPayStatusUpd (r : Rec') : Rec' :=
  let s := pyLower (pyStrip (pyStr (rgetD r "status" (Val.str ""))))
  rset r "payment_status" (Val.str (if s = "done" then "Paid" else "Pending"))

/-- The payment records after the payment-status pass. -/
def payRecordsLog2 (records : List Rec') : List Rec' :=
  (payRecordsLog records).map logPayStatusUpd

/-- Raw project values of the payments filter list (no `str` conversion in
this variant). -/
def logPayProjectsFilter (records : List Rec') : List Val :=
  sortAscBy valLe
    (firstDedup
      (((payRecordsLog records).filter (fun r => truthy (rget r "project"))).map
        (fun r => rget r "project")))

/-- Raw supplier values of the payments filter list (truthy and not
string-starting with `202`). -/
def logPaySuppliersFilter (records : List Rec') : List Val :=
  sortAscBy valLe
    (firstDedup (((payRecordsLog records).filter slaSupplierCountOk).map
      (fun r => rget r "supplier")))

/-- The per-record projection written into `payments_full_data.json`. -/
def payFormat (r : Rec') : Rec' :=
  [("job_order_no", rgetD r "job_order_no" (Val.str "")),
   ("company", rgetD r "company" (Val.str "")),
   ("project", rgetD r "project" (Val.str "Unknown")),
   ("requester", rgetD r "requester" (Val.str "")),
   ("request_date",
     if truthy (rget r "request_date") then Val.str (pyStr (rgetD r "request_date" (Val.str "")))
     else Val.str ""),
   ("supplier", rgetD r "supplier" (Val.str "Unknown")),
   ("equipment_1", rgetD r "equipment_1" (Val.str "")),
   ("total_amount", Val.num (safe_float (rget r "total_amount"))),
   ("payment_status", rgetD r "payment_status" (Val.str "Pending")),
   ("duration", Val.num (safe_float (rget r "duration"))),
   ("invoice_received",
     Val.str (if pyEq (rget r "status") (Val.str "Done") then "Yes" else "No")),
   ("invoice_receive_days", Val.num (safe_float (rget r "duration"))),
   ("payment_cycle_days", Val.num (safe_float (rget r "duration") + 30))]

/-- The output of `prepare_payments_data` (`metadata.last_update` omitted). -/
structure PaymentsData where
  total_records : ℕ
  filters_projects : List Val
  filters_suppliers : List Val
  filters_payment_statuses : List Val
  records : List Rec'
deriving DecidableEq, Repr

/-- `sync_logistics.py` `prepare_payments_data`. -/
def prepare_payments_data (records : List Rec') : PaymentsData :=
  { total_records := (payRecordsLog2 records).length
    filters_projects := logPayProjectsFilter records
    filters_suppliers := logPaySuppliersFilter records
    filters_payment_statuses :=
      let ps := sortAscBy valLe
        (firstDedup ((payRecordsLog2 records).map (fun r => rget r "payment_status")))
      if ps ≠ [] then ps else [Val.str "Paid", Val.str "Pending"]
    records := (payRecordsLog2 records).map payFormat }

/-! ### Concrete sample inputs for the scenario theorems -/

/-- Ten transportation records whose durations are `1..10` (the spec's
duration-statistics scenario). -/
def recs10 : List Rec' :=
  [[("duration", Val.num 1)], [("duration", Val.num 2)], [("duration", Val.num 3)],
   [("duration", Val.num 4)], [("duration", Val.num 5)], [("duration", Val.num 6)],
   [("duration", Val.num 7)], [("duration", Val.num 8)], [("duration", Val.num 9)],
   [("duration", Val.num 10)]]

/-- Ten job orders whose completion times are `1..10`. -/
def krecs10 : List Rec' :=
  [[("completion_days", Val.num 1)], [("completion_days", Val.num 2)],
   [("completion_days", Val.num 3)], [("completion_days", Val.num 4)],
   [("completion_days", Val.num 5)], [("completion_days", Val.num 6)],
   [("completion_days", Val.num 7)], [("completion_days", Val.num 8)],
   [("completion_days", Val.num 9)], [("completion_days", Val.num 10)]]

/-- A job order whose completion time is present but unparseable. -/
def recNA : Rec' := [("job_order_no", Val.str "J1"), ("completion_days", Val.str "N/A")]

/-- A job order with a project but no supplier field. -/
def recNoSupplier : Rec' := [("job_order_no", Val.str "J1"), ("project", Val.str "P")]

/-- A job order with only its key field. -/
def recBare : Rec' := [("job_order_no", Val.str "J1")]

/-- A transportation record whose status is not in any synonym table. -/
def recUnderProcess : Rec' :=
  [("job_order_no", Val.str "J1"), ("status", Val.str "Under Process")]

/-- A record with a falsy `total_amount` and one priced slot. -/
def recZeroAmount : Rec' := [("total_amount", Val.num 0), ("price_1", Val.num 5)]

/-! ### Helper lemmas -/

lemma rget_rset_same (r : Rec') (k : String) (v : Val) : rget (rset r k v) k = v := by
  simp [rget, rgetD, rset, rlookup]

lemma rget_rset_ne (r : Rec') (k k' : String) (v : Val) (h : k ≠ k') :
    rget (rset r k v) k' = rget r k' := by
  simp [rget, rgetD, rset, rlookup, h]

lemma rgetD_of_truthy (r : Rec') (k : String) (d : Val) (h : truthy (rget r k) = true) :
    rgetD r k d = rget r k := by
  unfold rget rgetD at *
  cases hl : rlookup r k with
  | none => rw [hl] at h; simp [Option.getD] at h; exact absurd h (by simp [truthy])
  | some v => simp [hl]

/-- Counting a three-way partition: if each element satisfies exactly one of
three boolean predicates, the filtered lengths add up to the full length. -/
lemma length_filter_three {α : Type} (l : List α) (p1 p2 p3 : α → Bool)
    (h : ∀ x ∈ l, (p1 x).toNat + (p2 x).toNat + (p3 x).toNat = 1) :
    (l.filter p1).length + (l.filter p2).length + (l.filter p3).length = l.length := by
  induction l with
  | nil => simp
  | cons a t ih =>
      have ha := h a (by simp)
      have ht := ih (fun x hx => h x (by simp [hx]))
      by_cases h1 : p1 a <;> by_cases h2 : p2 a <;> by_cases h3 : p3 a <;>
        simp [List.filter_cons, h1, h2, h3] at ha ⊢ <;> omega

lemma normStatusCore_mem (s : String) :
    normStatusCore s = "Done" ∨ normStatusCore s = "In Progress" ∨
      normStatusCore s = "Not Done" := by
  unfold normStatusCore
  split
  · exact Or.inl rfl
  · split
    · exact Or.inr (Or.inl rfl)
    · split
      · exact Or.inr (Or.inr rfl)
      · exact Or.inr (Or.inl rfl)

lemma slaRecords_status (r : Rec') :
    rget (slaAmountUpd (slaStatusUpd r)) "status" = slaStatusOf r := by
  unfold slaAmountUpd
  split <;>
    rw [rget_rset_ne _ _ _ _ (by decide)] <;>
    exact rget_rset_same _ _ _

lemma count_add_filter_ne {α : Type} [DecidableEq α] (t : List α) (x : α) :
    t.count x + (t.filter (fun y => decide (y ≠ x))).length = t.length := by
  simp only [ne_eq, decide_not]
  induction t with
  | nil => simp
  | cons a s ih =>
      by_cases h : a = x <;> simp [List.count_cons, List.filter_cons, h] <;> omega

lemma pyCounterGo_sum {α : Type} [DecidableEq α] :
    ∀ (fuel : ℕ) (ks : List α), ks.length ≤ fuel →
      ((pyCounterGo fuel ks).map (fun p => p.2)).sum = ks.length := by
  intro fuel
  induction fuel with
  | zero => intro ks h; rw [Nat.le_zero] at h; simp [List.length_eq_zero] at h
            subst h; simp [pyCounterGo]
  | succ n ih =>
      intro ks h
      cases ks with
      | nil => simp [pyCounterGo]
      | cons x t =>
          have hlen : (t.filter (fun y => decide (y ≠ x))).length ≤ n :=
            le_trans (List.length_filter_le _ _) (Nat.le_of_succ_le_succ h)
          simp only [pyCounterGo, List.map_cons, List.sum_cons, ih _ hlen]
          have h2 := count_add_filter_ne t x
          simp only [ne_eq, decide_not] at h2 ⊢
          simp only [List.length_cons]
          omega

/-- The bucket counts of a Counter add up to the length of the counted list. -/
lemma pyCounter_sum {α : Type} [DecidableEq α] (ks : List α) :
    ((pyCounter ks).map (fun p => p.2)).sum = ks.length :=
  pyCounterGo_sum ks.length ks le_rfl

lemma pyCounterGo_key_mem {α : Type} [DecidableEq α] :
    ∀ (fuel : ℕ) (ks : List α) (p : α × ℕ), ks.length ≤ fuel →
      p ∈ pyCounterGo fuel ks → p.1 ∈ ks := by
  intro fuel
  induction fuel with
  | zero => intro ks p _ hp; simp [pyCounterGo] at hp
  | succ n ih =>
      intro ks p h hp
      cases ks with
      | nil => simp [pyCounterGo] at hp
      | cons x t =>
          simp only [pyCounterGo, List.mem_cons] at hp
          rcases hp with hp | hp
          · subst hp; simp
          · have hlen : (t.filter (fun y => decide (y ≠ x))).length ≤ n :=
              le_trans (List.length_filter_le _ _) (Nat.le_of_succ_le_succ h)
            have := ih _ p hlen hp
            have := List.mem_of_mem_filter this
            simp [this]

lemma pyCounter_key_mem {α : Type} [DecidableEq α] (ks : List α) (p : α × ℕ)
    (hp : p ∈ pyCounter ks) : p.1 ∈ ks :=
  pyCounterGo_key_mem ks.length ks p le_rfl hp

lemma dictSumGo_key_mem {α : Type} [DecidableEq α] :
    ∀ (fuel : ℕ) (ps : List (α × ℚ)) (p : α × ℚ), ps.length ≤ fuel →
      p ∈ dictSumGo fuel ps → p.1 ∈ ps.map (fun q => q.1) := by
  intro fuel
  induction fuel with
  | zero => intro ps p _ hp; simp [dictSumGo] at hp
  | succ n ih =>
      intro ps p h hp
      cases ps with
      | nil => simp [dictSumGo] at hp
      | cons kq t =>
          simp only [dictSumGo, List.mem_cons] at hp
          rcases hp with hp | hp
          · subst hp; simp
          · have hlen : (t.filter (fun q => decide (q.1 ≠ kq.1))).length ≤ n :=
              le_trans (List.length_filter_le _ _) (Nat.le_of_succ_le_succ h)
            have hm := ih _ p hlen hp
            simp only [List.mem_map] at hm ⊢
            obtain ⟨q, hq, hq1⟩ := hm
            exact ⟨q, List.mem_cons_of_mem _ (List.mem_of_mem_filter hq), hq1⟩

lemma dictSum_key_mem {α : Type} [DecidableEq α] (ps : List (α × ℚ)) (p : α × ℚ)
    (hp : p ∈ dictSum ps) : p.1 ∈ ps.map (fun q => q.1) :=
  dictSumGo_key_mem ps.length ps p le_rfl hp

lemma firstDedupGo_mem {α : Type} [DecidableEq α] :
    ∀ (fuel : ℕ) (xs : List α) (a : α), xs.length ≤ fuel →
      a ∈ firstDedupGo fuel xs → a ∈ xs := by
  intro fuel
  induction fuel with
  | zero => intro xs a _ ha; simp [firstDedupGo] at ha
  | succ n ih =>
      intro xs a h ha
      cases xs with
      | nil => simp [firstDedupGo] at ha
      | cons x t =>
          simp only [firstDedupGo, List.mem_cons] at ha
          rcases ha with ha | ha
          · simp [ha]
          · have hlen : (t.filter (fun y => decide (y ≠ x))).length ≤ n :=
              le_trans (List.length_filter_le _ _) (Nat.le_of_succ_le_succ h)
            exact List.mem_cons_of_mem _ (List.mem_of_mem_filter (ih _ a hlen ha))

lemma firstDedup_mem {α : Type} [DecidableEq α] (xs : List α) (a : α)
    (ha : a ∈ firstDedup xs) : a ∈ xs :=
  firstDedupGo_mem xs.length xs a le_rfl ha

lemma insertAscBy_mem {α : Type} (le : α → α → Bool) (x a : α) :
    ∀ l : List α, a ∈ insertAscBy le x l → a = x ∨ a ∈ l := by
  intro l
  induction l with
  | nil => intro h; simpa [insertAscBy] using h
  | cons y t ih =>
      intro h
      simp only [insertAscBy] at h
      split at h
      · simpa using h
      · simp only [List.mem_cons] at h
        rcases h with h | h
        · exact Or.inr (by simp [h])
        · rcases ih h with h | h
          · exact Or.inl h
          · exact Or.inr (by simp [h])

lemma sortAscBy_mem {α : Type} (le : α → α → Bool) (a : α) :
    ∀ l : List α, a ∈ sortAscBy le l → a ∈ l := by
  intro l
  induction l with
  | nil => intro h; simp [sortAscBy] at h
  | cons y t ih =>
      intro h
      have h' : a ∈ insertAscBy le y (sortAscBy le t) := h
      rcases insertAscBy_mem le y a _ h' with h'' | h''
      · simp [h'']
      · exact List.mem_cons_of_mem _ (ih h'')

lemma insertDesc_mem {α β : Type} [LinearOrder β] (x a : α × β) :
    ∀ l : List (α × β), a ∈ insertDesc x l → a = x ∨ a ∈ l := by
  intro l
  induction l with
  | nil => intro h; simpa [insertDesc] using h
  | cons y t ih =>
      intro h
      simp only [insertDesc] at h
      split at h
      · simpa using h
      · simp only [List.mem_cons] at h
        rcases h with h | h
        · exact Or.inr (by simp [h])
        · rcases ih h with h' | h'
          · exact Or.inl h'
          · exact Or.inr (by simp [h'])

lemma sortDesc_mem {α β : Type} [LinearOrder β] (a : α × β) :
    ∀ l : List (α × β), a ∈ sortDesc l → a ∈ l := by
  intro l
  induction l with
  | nil => intro h; simp [sortDesc] at h
  | cons y t ih =>
      intro h
      have h' : a ∈ insertDesc y (sortDesc t) := h
      rcases insertDesc_mem y a _ h' with h'' | h''
      · simp [h'']
      · exact List.mem_cons_of_mem _ (ih h'')

lemma most_common_mem {α β : Type} [LinearOrder β] (n : ℕ) (l : List (α × β)) (a : α × β)
    (ha : a ∈ most_common n l) : a ∈ l :=
  sortDesc_mem a l (List.take_subset _ _ ha)

/-- Inserting preserves descending pairwise order by the second component. -/
lemma insertDesc_pairwise {α β : Type} [LinearOrder β] (x : α × β) :
    ∀ l : List (α × β), l.Pairwise (fun a b => b.2 ≤ a.2) →
      (insertDesc x l).Pairwise (fun a b => b.2 ≤ a.2) := by
  intro l
  induction l with
  | nil => intro _; simp [insertDesc]
  | cons y t ih =>
      intro hp
      rw [List.pairwise_cons] at hp
      simp only [insertDesc]
      split
      · rename_i hle
        refine List.pairwise_cons.mpr ⟨?_, List.pairwise_cons.mpr hp⟩
        intro z hz
        rcases List.mem_cons.mp hz with hz | hz
        · exact hz ▸ hle
        · exact le_trans (hp.1 z hz) hle
      · rename_i hgt
        push_neg at hgt
        refine List.pairwise_cons.mpr ⟨?_, ih hp.2⟩
        intro z hz
        rcases insertDesc_mem x z t hz with hz' | hz'
        · exact hz' ▸ le_of_lt hgt
        · exact hp.1 z hz'

lemma sortDesc_pairwise {α β : Type} [LinearOrder β] :
    ∀ l : List (α × β), (sortDesc l).Pairwise (fun a b => b.2 ≤ a.2) := by
  intro l
  induction l with
  | nil => simp [sortDesc]
  | cons y t ih => exact insertDesc_pairwise y _ ih

lemma most_common_pairwise {α β : Type} [LinearOrder β] (n : ℕ) (l : List (α × β)) :
    (most_common n l).Pairwise (fun a b => b.2 ≤ a.2) :=
  List.Pairwise.sublist (List.take_sublist _ _) (sortDesc_pairwise l)

/-- Stability of the descending insertion: the subsequence of entries whose
rank value equals any fixed `v` is untouched. -/
lemma insertDesc_filter {α β : Type} [LinearOrder β] (v : β) (x : α × β) :
    ∀ l : List (α × β),
      (insertDesc x l).filter (fun p => decide (p.2 = v)) =
        (x :: l).filter (fun p => decide (p.2 = v)) := by
  intro l
  induction l with
  | nil => simp [insertDesc]
  | cons y t ih =>
      simp only [insertDesc]
      split
      · rfl
      · rename_i hgt
        push_neg at hgt
        by_cases hx : x.2 = v
        · have hy : ¬ y.2 = v := by rw [← hx]; exact ne_of_gt hgt
          simp [List.filter_cons, hx, hy, ih]
        · simp [List.filter_cons, hx, ih]

lemma sortDesc_filter {α β : Type} [LinearOrder β] (v : β) :
    ∀ l : List (α × β),
      (sortDesc l).filter (fun p => decide (p.2 = v)) =
        l.filter (fun p => decide (p.2 = v)) := by
  intro l
  induction l with
  | nil => simp [sortDesc]
  | cons y t ih =>
      have : (sortDesc (y :: t)) = insertDesc y (sortDesc t) := rfl
      rw [this, insertDesc_filter v y (sortDesc t)]
      simp [List.filter_cons, ih]

/-- The truncated table's tie groups are prefixes of the pre-sort tie groups
(first-encounter order). -/
lemma most_common_filter_prefix {α β : Type} [LinearOrder β] (n : ℕ) (l : List (α × β))
    (v : β) :
    ∃ t, l.filter (fun p => decide (p.2 = v)) =
      (most_common n l).filter (fun p => decide (p.2 = v)) ++ t := by
  refine ⟨((sortDesc l).drop n).filter (fun p => decide (p.2 = v)), ?_⟩
  rw [← sortDesc_filter v l, most_common, ← List.filter_append, List.take_append_drop]

/-- The three claim-relevant properties of a truncated stable top-`n` table. -/
lemma most_common_props {α β : Type} [LinearOrder β] (n : ℕ) (l : List (α × β)) :
    (most_common n l).length ≤ n ∧
    (most_common n l).Pairwise (fun a b => b.2 ≤ a.2) ∧
    ∀ v : β, ∃ t, l.filter (fun p => decide (p.2 = v)) =
      (most_common n l).filter (fun p => decide (p.2 = v)) ++ t :=
  ⟨List.length_take_le _ _, most_common_pairwise n l, most_common_filter_prefix n l⟩

/-- A record passing the supplier-Counter guard has a supplier whose string
form does not start with `202`. -/
lemma supplierCountOk_key (r : Rec') (h : slaSupplierCountOk r = true) :
    (!starts202 (pyStr (rget r "supplier"))) = true := by
  simp only [slaSupplierCountOk, Bool.and_eq_true] at h
  rcases h with ⟨ht, hs⟩
  rwa [rgetD_of_truthy _ _ _ ht] at hs

/-! ### Claim theorems -/

/-- C1: for every input record list, each status-bucketed report satisfies
`done + in_progress + not_done = total` (`calculate_sla_metrics` recounts all
three buckets over the closed normalized vocabulary; `calculate_sla_kpis` and
`calculate_payments_kpis` compute the third bucket as the integer remainder),
and likewise `paid + pending + other = total` for the payments report. -/
theorem C1_status_bucket_identity :
    (∀ records : List Rec',
        (calculate_sla_metrics records).summary.done_orders +
          (calculate_sla_metrics records).summary.in_progress_orders +
          (calculate_sla_metrics records).summary.not_done_orders =
        (calculate_sla_metrics records).summary.total_orders) ∧
    (∀ orders : List Rec',
        ((calculate_sla_kpis orders).summary.done_orders : ℤ) +
          (calculate_sla_kpis orders).summary.in_progress_orders +
          (calculate_sla_kpis orders).summary.not_done_orders =
        ((calculate_sla_kpis orders).summary.total_orders : ℤ)) ∧
    (∀ orders : List Rec',
        ((calculate_payments_kpis orders).summary.paid_invoices : ℤ) +
          (calculate_payments_kpis orders).summary.pending_invoices +
          (calculate_payments_kpis orders).summary.other_status =
        ((calculate_payments_kpis orders).summary.total_invoices : ℤ)) := by
  refine ⟨?_, ?_, ?_⟩
  · intro records
    show slaDone records + slaInProgress records + slaNotDone records = records.length
    have key : ∀ x ∈ slaRecords records,
        (statusIs x "Done").toNat + (statusIs x "In Progress").toNat +
          (statusIs x "Not Done").toNat = 1 := by
      intro x hx
      simp only [slaRecords, List.mem_map] at hx
      obtain ⟨y, hy, rfl⟩ := hx
      obtain ⟨r, hr, rfl⟩ := hy
      have hst := slaRecords_status r
      simp only [statusIs, hst, slaStatusOf, pyEq]
      rcases normStatusCore_mem (pyLower (pyStrip (pyStr (rgetD r "status" (Val.str ""))))) with
        h | h | h <;> rw [h] <;> decide
    have h3 := length_filter_three (slaRecords records) (fun r => statusIs r "Done")
      (fun r => statusIs r "In Progress") (fun r => statusIs r "Not Done") key
    have hlen : (slaRecords records).length = records.length := by
      simp [slaRecords]
    unfold slaDone slaInProgress slaNotDone
    omega
  · intro orders
    show (kpiDone orders : ℤ) + (kpiInProgress orders : ℤ) + kpiNotDone orders =
      (orders.length : ℤ)
    unfold kpiNotDone
    ring
  · intro orders
    show (payPaid orders : ℤ) + (payPending orders : ℤ) + payOther orders =
      ((invoiceOrders orders).length : ℤ)
    unfold payOther
    ring

/-- C2 (amended): `calculate_sla_metrics` computes its duration statistics
over the present, positive `safe_float` durations, with median at index
`⌊n/2⌋` of the ascending sort, p90 at index `min ⌊9n/10⌋ (n-1)`, and on-time
rate the percentage of values `≤ 3`; on durations `1..10` this gives median
`6`, p90 `10`, on-time rate `30`.  `calculate_sla_kpis` uses the same
formulas (p90 unclamped) and reproduces the same scenario values, but its
duration list keeps every truthy `completion_days`, including non-positive
parses — see the counterexample. -/
theorem C2_duration_statistics :
    (∀ records : List Rec', ∀ d ∈ slaDurations records, 0 < d) ∧
    (calculate_sla_metrics recs10).summary.median_duration = 6 ∧
    (calculate_sla_metrics recs10).summary.p90_duration = 10 ∧
    (calculate_sla_metrics recs10).summary.on_time_rate = 30 ∧
    (calculate_sla_metrics recs10).summary.avg_duration = 11 / 2 ∧
    (calculate_sla_kpis krecs10).summary.median_duration = 6 ∧
    (calculate_sla_kpis krecs10).summary.p90_duration = 10 ∧
    (calculate_sla_kpis krecs10).summary.on_time_rate = 30 := by
  refine ⟨?_, ?_, ?_, ?_, ?_, ?_, ?_, ?_⟩
  · intro records d hd
    simp only [slaDurations, List.mem_map] at hd
    obtain ⟨r, hr, rfl⟩ := hd
    have hc := (List.mem_filter.mp hr).2
    simp only [Bool.and_eq_true, decide_eq_true_eq] at hc
    exact hc.2
  all_goals with_unfolding_all decide

/-- C2 witness: the theorem's positivity clause applied to the concrete
scenario list, at the member `1`. -/
theorem C2_duration_statistics_witness :
    (1 : ℚ) ∈ slaDurations recs10 ∧ (0 : ℚ) < 1 :=
  ⟨by with_unfolding_all decide,
   C2_duration_statistics.1 recs10 1 (by with_unfolding_all decide)⟩

/-- C2 counterexample: on a single record whose `completion_days` is the
unparseable string `"N/A"`, the KPI duration list is `[0]` — a present but
non-positive value — and the on-time rate comes out as `100`, whereas a
computation over "all present, positive duration values" (an empty list here)
would give `0`. -/
theorem C2_counterexample :
    kpiCompletionTimes [recNA] = [0] ∧
    ¬ (0 : ℚ) > 0 ∧
    (calculate_sla_kpis [recNA]).summary.on_time_rate = 100 := by
  refine ⟨?_, by norm_num, ?_⟩ <;> with_unfolding_all decide

/-- C3: both monetary normalizers pass numeric input through unchanged;
`parse_cost` strips every character that is not an ASCII digit or `.` and
parses the remainder (empty or unparseable → `0`); on the scenario costs
`["1,200 SAR", 100, 300]` both cleaners yield `[1200, 100, 300]`. -/
theorem C3_monetary_normalizer :
    (∀ q : ℚ, parse_cost (Val.num q) = q) ∧
    (∀ q : ℚ, safe_float (Val.num q) = q) ∧
    parse_cost (Val.str "1,200 SAR") = 1200 ∧
    parse_cost (Val.num 100) = 100 ∧
    parse_cost (Val.num 300) = 300 ∧
    safe_float (Val.str "1,200 SAR") = 1200 ∧
    safe_float (Val.num 100) = 100 ∧
    safe_float (Val.num 300) = 300 ∧
    parse_cost (Val.str "") = 0 ∧
    parse_cost (Val.str "N/A") = 0 ∧
    parse_cost (Val.str "1.2.3") = 0 :=
  ⟨fun _ => rfl, fun _ => rfl,
   by with_unfolding_all decide, by with_unfolding_all decide, by with_unfolding_all decide,
   by with_unfolding_all decide, by with_unfolding_all decide, by with_unfolding_all decide,
   by with_unfolding_all decide, by with_unfolding_all decide, by with_unfolding_all decide⟩

/-- C4: the three value normalizers are total in the embedding and default to
`0` on `None`, the empty string, garbage strings, and in general whenever the
underlying `float()` parse fails. -/
theorem C4_normalizers_total :
    parse_cost Val.none = 0 ∧ safe_float Val.none = 0 ∧ parse_days Val.none = 0 ∧
    parse_cost (Val.str "") = 0 ∧ safe_float (Val.str "") = 0 ∧ parse_days (Val.str "") = 0 ∧
    parse_cost (Val.str "garbage!@#") = 0 ∧ safe_float (Val.str "garbage!@#") = 0 ∧
    parse_days (Val.str "garbage!@#") = 0 ∧
    (∀ s : String,
      pyFloat? (String.mk (s.toList.filter (fun c => c.isDigit || c = '.'))) = Option.none →
        parse_cost (Val.str s) = 0) ∧
    (∀ s : String, pyFloat? (safeFloatClean s) = Option.none → safe_float (Val.str s) = 0) ∧
    (∀ s : String, pyFloat? s = Option.none → parse_days (Val.str s) = 0) := by
  refine ⟨rfl, rfl, rfl, by with_unfolding_all decide, by with_unfolding_all decide,
    by with_unfolding_all decide, by with_unfolding_all decide, by with_unfolding_all decide,
    by with_unfolding_all decide, ?_, ?_, ?_⟩
  · intro s h
    simp only [parse_cost]
    split
    · rfl
    · rw [h]; rfl
  · intro s h
    simp only [safe_float]
    split
    · rfl
    · rw [h]; rfl
  · intro s h
    simp only [parse_days]
    rw [h]; rfl

/-- C4 witness: the unparseable-string clause of the theorem applied at the
concrete garbage input `"N/A"`. -/
theorem C4_normalizers_total_witness :
    pyFloat? (safeFloatClean "N/A") = Option.none ∧ safe_float (Val.str "N/A") = 0 :=
  ⟨by with_unfolding_all decide,
   C4_normalizers_total.2.2.2.2.2.2.2.2.2.2.1 "N/A" (by with_unfolding_all decide)⟩

/-- C5 counterexample: a single order with a project but no supplier field is
counted in `total_orders` (`1`) but contributes to no supplier-count bucket
(the guard `if o.get('supplier')` drops it, so the bucket sum is `0`, not the
total record count as claimed). -/
theorem C5_counterexample :
    ((kpiSupplierCountItems [recNoSupplier]).map (fun p => p.2)).sum = 0 ∧
    (calculate_sla_kpis [recNoSupplier]).summary.total_orders = 1 := by
  with_unfolding_all decide

/-- C5 (amended): records with a missing or falsy categorical field are
excluded from the count distributions — the `'Unknown'` default inside those
guarded comprehensions is unreachable — so every bucket sum equals the number
of records whose field is truthy, not the total record count.  Only the
unguarded/default-guarded amount maps (`projects`, and the
`o.get(field, 'Unknown')`-guarded cost dicts) attribute an absent field to a
literal `Unknown` bucket. -/
theorem C5_unknown_bucketing :
    (∀ orders : List Rec',
        ((kpiSupplierCountItems orders).map (fun p => p.2)).sum =
          (orders.filter (fun o => truthy (rget o "supplier"))).length) ∧
    (∀ orders : List Rec',
        ((kpiProjectCountItems orders).map (fun p => p.2)).sum =
          (orders.filter (fun o => truthy (rget o "project"))).length) ∧
    (∀ records : List Rec',
        ((slaCompanyItems records).map (fun p => p.2)).sum =
          ((slaRecords records).filter (fun r => truthy (rget r "company"))).length) ∧
    kpiProjectCostItems [recBare] = [(Val.str "Unknown", 0)] ∧
    kpiSupplierCostItems [recBare] = [(Val.str "Unknown", 0)] := by
  refine ⟨?_, ?_, ?_, ?_, ?_⟩
  · intro orders
    unfold kpiSupplierCountItems
    rw [pyCounter_sum, List.length_map]
  · intro orders
    unfold kpiProjectCountItems
    rw [pyCounter_sum, List.length_map]
  · intro records
    unfold slaCompanyItems
    rw [pyCounter_sum, List.length_map]
  · with_unfolding_all decide
  · with_unfolding_all decide

/-- C6 counterexample: in `prepare_transportation_data` the status
`"Under Process"` — which the claim says maps to `In Progress` — is passed
through verbatim by the fall-through branch, leaving a status outside the
closed set `{Done, In Progress, Not Done}`. -/
theorem C6_counterexample :
    ((prepare_transportation_data [recUnderProcess]).records.map
        (fun r => rget r "status")) = [Val.str "Under Process"] ∧
    Val.str "Under Process" ≠ Val.str "Done" ∧
    Val.str "Under Process" ≠ Val.str "In Progress" ∧
    Val.str "Under Process" ≠ Val.str "Not Done" := by
  with_unfolding_all decide

/-- C6 (amended): the `calculate_sla_metrics` normalizer behaves exactly as
claimed — trim, lower-case, the stated synonym tables, every other non-empty
status to `Not Done`, empty or missing to `In Progress`, hence a closed
three-value vocabulary.  The `prepare_transportation_data` normalizer maps
only `{in progress, inprogress, pending}` to `In Progress` and
`{not done, cancelled, canceled}` to `Not Done`, and keeps any other
non-empty status verbatim, so its output is not confined to the closed set. -/
theorem C6_status_normalization :
    (∀ r : Rec', slaStatusOf r = Val.str "Done" ∨ slaStatusOf r = Val.str "In Progress" ∨
        slaStatusOf r = Val.str "Not Done") ∧
    slaStatusOf [("status", Val.str "  DONE ")] = Val.str "Done" ∧
    slaStatusOf [("status", Val.str "completed")] = Val.str "Done" ∧
    slaStatusOf [("status", Val.str "complete")] = Val.str "Done" ∧
    slaStatusOf [("status", Val.str "in progress")] = Val.str "In Progress" ∧
    slaStatusOf [("status", Val.str "InProgress")] = Val.str "In Progress" ∧
    slaStatusOf [("status", Val.str "pending")] = Val.str "In Progress" ∧
    slaStatusOf [("status", Val.str "under process")] = Val.str "In Progress" ∧
    slaStatusOf [("status", Val.str "waiting for quotation")] = Val.str "In Progress" ∧
    slaStatusOf [("status", Val.str "shipped")] = Val.str "Not Done" ∧
    slaStatusOf [("status", Val.str "")] = Val.str "In Progress" ∧
    slaStatusOf [] = Val.str "In Progress" ∧
    logStatusOf [("status", Val.str "cancelled")] = Val.str "Not Done" ∧
    logStatusOf [("status", Val.str "pending")] = Val.str "In Progress" ∧
    logStatusOf [] = Val.str "In Progress" ∧
    logStatusOf [("status", Val.str "Under Process")] = Val.str "Under Process" := by
  refine ⟨?_, ?_, ?_, ?_, ?_, ?_, ?_, ?_, ?_, ?_, ?_, ?_, ?_, ?_, ?_, ?_⟩
  · intro r
    rcases normStatusCore_mem (pyLower (pyStrip (pyStr (rgetD r "status" (Val.str ""))))) with
      h | h | h <;> simp [slaStatusOf, h]
  all_goals with_unfolding_all decide

/-- C7: on the empty record list both report computations degrade to neutral
values — every summary count, rate, amount and duration statistic is `0` and
every distribution and the monthly trend is empty — with the zero-denominator
guards taking the `else 0` branches. -/
theorem C7_empty_dataset :
    (calculate_sla_metrics []).summary = ⟨0, 0, 0, 0, 0, 0, 0, 0, 0, 0, 0⟩ ∧
    (calculate_sla_metrics []).status_done = 0 ∧
    (calculate_sla_metrics []).status_in_progress = 0 ∧
    (calculate_sla_metrics []).status_not_done = 0 ∧
    (calculate_sla_metrics []).company_breakdown = [] ∧
    (calculate_sla_metrics []).top_suppliers = [] ∧
    (calculate_sla_metrics []).suppliers_by_amount = [] ∧
    (calculate_sla_metrics []).top_projects_by_orders = [] ∧
    (calculate_sla_metrics []).top_projects_by_amount = [] ∧
    (calculate_sla_metrics []).equipment_distribution = [] ∧
    (calculate_sla_metrics []).equipment_by_amount = [] ∧
    (calculate_sla_metrics []).monthly_trend = [] ∧
    (calculate_sla_kpis []).summary = ⟨0, 0, 0, 0, 0, 0, 0, 0, 0, 0⟩ ∧
    (calculate_sla_kpis []).top_suppliers = [] ∧
    (calculate_sla_kpis []).suppliers = [] ∧
    (calculate_sla_kpis []).top_projects = [] ∧
    (calculate_sla_kpis []).projects_orders = [] ∧
    (calculate_sla_kpis []).equipment_distribution = [] ∧
    (calculate_sla_kpis []).equipment_cost = [] ∧
    (calculate_sla_kpis []).monthly_trend = [] := by
  with_unfolding_all decide

/-- C8: every top-N table of both `calculate_sla_metrics` and
`calculate_sla_kpis` is capped at its configured size (10 suppliers, 20
projects, 15 equipment, for both the count and the amount views), is ordered
non-increasing by its ranking value, and within any tie group preserves the
pre-sort first-encounter order (the table's tie group is a prefix of the
accumulator's, whose keys arise in first-encounter order). -/
theorem C8_topn_tables :
    ∀ records : List Rec',
      ((calculate_sla_metrics records).top_suppliers.length ≤ 10 ∧
        (calculate_sla_metrics records).top_suppliers.Pairwise (fun a b => b.2 ≤ a.2) ∧
        ∀ v : ℕ, ∃ t, (slaSupplierCountItems records).filter (fun p => decide (p.2 = v)) =
          (calculate_sla_metrics records).top_suppliers.filter (fun p => decide (p.2 = v)) ++ t) ∧
      ((calculate_sla_metrics records).suppliers_by_amount.length ≤ 10 ∧
        (calculate_sla_metrics records).suppliers_by_amount.Pairwise (fun a b => b.2 ≤ a.2) ∧
        ∀ v : ℚ, ∃ t, (slaSupplierAmountItems records).filter (fun p => decide (p.2 = v)) =
          (calculate_sla_metrics records).suppliers_by_amount.filter
            (fun p => decide (p.2 = v)) ++ t) ∧
      ((calculate_sla_metrics records).top_projects_by_orders.length ≤ 20 ∧
        (calculate_sla_metrics records).top_projects_by_orders.Pairwise (fun a b => b.2 ≤ a.2) ∧
        ∀ v : ℕ, ∃ t, (slaProjectCountItems records).filter (fun p => decide (p.2 = v)) =
          (calculate_sla_metrics records).top_projects_by_orders.filter
            (fun p => decide (p.2 = v)) ++ t) ∧
      ((calculate_sla_metrics records).top_projects_by_amount.length ≤ 20 ∧
        (calculate_sla_metrics records).top_projects_by_amount.Pairwise (fun a b => b.2 ≤ a.2) ∧
        ∀ v : ℚ, ∃ t, (slaProjectAmountItems records).filter (fun p => decide (p.2 = v)) =
          (calculate_sla_metrics records).top_projects_by_amount.filter
            (fun p => decide (p.2 = v)) ++ t) ∧
      ((calculate_sla_metrics records).equipment_distribution.length ≤ 15 ∧
        (calculate_sla_metrics records).equipment_distribution.Pairwise (fun a b => b.2 ≤ a.2) ∧
        ∀ v : ℕ, ∃ t, (slaEquipCountItems records).filter (fun p => decide (p.2 = v)) =
          (calculate_sla_metrics records).equipment_distribution.filter
            (fun p => decide (p.2 = v)) ++ t) ∧
      ((calculate_sla_metrics records).equipment_by_amount.length ≤ 15 ∧
        (calculate_sla_metrics records).equipment_by_amount.Pairwise (fun a b => b.2 ≤ a.2) ∧
        ∀ v : ℚ, ∃ t, (slaEquipAmountItems records).filter (fun p => decide (p.2 = v)) =
          (calculate_sla_metrics records).equipment_by_amount.filter
            (fun p => decide (p.2 = v)) ++ t) ∧
      ((calculate_sla_kpis records).top_suppliers.length ≤ 10 ∧
        (calculate_sla_kpis records).top_suppliers.Pairwise (fun a b => b.2 ≤ a.2) ∧
        ∀ v : ℕ, ∃ t, (kpiSupplierCountItems records).filter (fun p => decide (p.2 = v)) =
          (calculate_sla_kpis records).top_suppliers.filter (fun p => decide (p.2 = v)) ++ t) ∧
      ((calculate_sla_kpis records).suppliers.length ≤ 10 ∧
        (calculate_sla_kpis records).suppliers.Pairwise (fun a b => b.2 ≤ a.2) ∧
        ∀ v : ℚ, ∃ t, (kpiSupplierCostItems records).filter (fun p => decide (p.2 = v)) =
          (calculate_sla_kpis records).suppliers.filter (fun p => decide (p.2 = v)) ++ t) ∧
      ((calculate_sla_kpis records).top_projects.length ≤ 20 ∧
        (calculate_sla_kpis records).top_projects.Pairwise (fun a b => b.2 ≤ a.2) ∧
        ∀ v : ℚ, ∃ t, (kpiProjectCostItems records).filter (fun p => decide (p.2 = v)) =
          (calculate_sla_kpis records).top_projects.filter (fun p => decide (p.2 = v)) ++ t) ∧
      ((calculate_sla_kpis records).projects_orders.length ≤ 20 ∧
        (calculate_sla_kpis records).projects_orders.Pairwise (fun a b => b.2 ≤ a.2) ∧
        ∀ v : ℕ, ∃ t, (kpiProjectCountItems records).filter (fun p => decide (p.2 = v)) =
          (calculate_sla_kpis records).projects_orders.filter (fun p => decide (p.2 = v)) ++ t) ∧
      ((calculate_sla_kpis records).equipment_distribution.length ≤ 15 ∧
        (calculate_sla_kpis records).equipment_distribution.Pairwise (fun a b => b.2 ≤ a.2) ∧
        ∀ v : ℕ, ∃ t, (kpiEquipCountItems records).filter (fun p => decide (p.2 = v)) =
          (calculate_sla_kpis records).equipment_distribution.filter
            (fun p => decide (p.2 = v)) ++ t) ∧
      ((calculate_sla_kpis records).equipment_cost.length ≤ 15 ∧
        (calculate_sla_kpis records).equipment_cost.Pairwise (fun a b => b.2 ≤ a.2) ∧
        ∀ v : ℚ, ∃ t, (kpiEquipCostItems records).filter (fun p => decide (p.2 = v)) =
          (calculate_sla_kpis records).equipment_cost.filter
            (fun p => decide (p.2 = v)) ++ t) := by
  intro records
  exact ⟨most_common_props 10 _, most_common_props 10 _, most_common_props 20 _,
    most_common_props 20 _, most_common_props 15 _, most_common_props 15 _,
    most_common_props 10 _, most_common_props 10 _, most_common_props 20 _,
    most_common_props 20 _, most_common_props 15 _, most_common_props 15 _⟩

/-- C9: the record builder prefers a truthy structured cell value over the
display fallback, but `0`, the empty string and `None` all fall through to
the display value; the retention filter keeps only records whose
`job_order_no` or `project` is truthy; and a falsy (`0`, empty or absent)
`total_amount` is recomputed as the sum of the five price slots. -/
theorem C9_record_builder :
    (∀ c : Cell, truthy c.value = true → cellVal c = c.value) ∧
    (∀ (i : ℕ) (d : Val),
        cellVal ⟨i, Val.num 0, d⟩ = d ∧ cellVal ⟨i, Val.str "", d⟩ = d ∧
        cellVal ⟨i, Val.none, d⟩ = d) ∧
    (∀ sheet : Sheet,
        (process_sheet sheet).all
          (fun r => truthy (rget r "job_order_no") || truthy (rget r "project")) = true) ∧
    (∀ r : Rec', truthy (rget r "total_amount") = false →
        rget (slaAmountUpd r) "total_amount" = Val.num (slaPriceSum r)) := by
  refine ⟨?_, ?_, ?_, ?_⟩
  · intro c h
    simp [cellVal, pyOr, h]
  · intro i d
    have h0 : truthy (Val.str "") = false := by with_unfolding_all decide
    exact ⟨by simp [cellVal, pyOr, truthy], by simp [cellVal, pyOr, h0],
      by simp [cellVal, pyOr, truthy]⟩
  · intro sheet
    rw [List.all_eq_true]
    intro r hr
    exact (List.mem_filter.mp hr).2
  · intro r h
    simp [slaAmountUpd, h, rget_rset_same]

/-- C9 witness: the preference clause at a cell with truthy structured value
and the recomputation clause at a record with `total_amount = 0` and
`price_1 = 5`. -/
theorem C9_record_builder_witness :
    truthy (Val.str "X") = true ∧
    cellVal ⟨1, Val.str "X", Val.str "Y"⟩ = Val.str "X" ∧
    truthy (rget recZeroAmount "total_amount") = false ∧
    rget (slaAmountUpd recZeroAmount) "total_amount" = Val.num (slaPriceSum recZeroAmount) ∧
    slaPriceSum recZeroAmount = 5 :=
  ⟨by with_unfolding_all decide,
   C9_record_builder.1 ⟨1, Val.str "X", Val.str "Y"⟩ (by with_unfolding_all decide),
   by with_unfolding_all decide,
   C9_record_builder.2.2.2 recZeroAmount (by with_unfolding_all decide),
   by with_unfolding_all decide⟩

/-- C10: a record whose supplier string form starts with `202` contributes to
no supplier distribution: every key of the supplier count table, the
supplier amount table, the transportation suppliers filter list and the
payments suppliers filter list has a string form not starting with `202`. -/
theorem C10_supplier_202_guard :
    ∀ records : List Rec',
      ((calculate_sla_metrics records).top_suppliers.all
          (fun p => !starts202 (pyStr p.1)) = true) ∧
      ((calculate_sla_metrics records).suppliers_by_amount.all
          (fun p => !starts202 (pyStr p.1)) = true) ∧
      ((prepare_transportation_data records).filters_suppliers.all
          (fun s => !starts202 s) = true) ∧
      ((prepare_payments_data records).filters_suppliers.all
          (fun v => !starts202 (pyStr v)) = true) := by
  intro records
  refine ⟨?_, ?_, ?_, ?_⟩
  · rw [List.all_eq_true]
    intro p hp
    have h1 : p ∈ slaSupplierCountItems records := most_common_mem 10 _ p hp
    have h2 := pyCounter_key_mem _ p h1
    simp only [List.mem_map] at h2
    obtain ⟨r, hr, hkey⟩ := h2
    have hok := (List.mem_filter.mp hr).2
    have := supplierCountOk_key r hok
    rwa [hkey] at this
  · rw [List.all_eq_true]
    intro p hp
    have h1 : p ∈ slaSupplierAmountItems records := most_common_mem 10 _ p hp
    have h2 := dictSum_key_mem _ p h1
    simp only [List.map_map, List.mem_map] at h2
    obtain ⟨r, hr, hkey⟩ := h2
    have hok := (List.mem_filter.mp hr).2
    simp only [slaSupplierAmountOk, Bool.and_eq_true] at hok
    have := hok.2
    simp only [Function.comp] at hkey
    rwa [hkey] at this
  · rw [List.all_eq_true]
    intro s hs
    have h1 := sortAscBy_mem strLe s _ hs
    simp only [List.mem_map] at h1
    obtain ⟨v, hv, hkey⟩ := h1
    have h2 := firstDedup_mem _ v hv
    simp only [List.mem_map] at h2
    obtain ⟨r, hr, hkey2⟩ := h2
    have hok := (List.mem_filter.mp hr).2
    have := supplierCountOk_key r hok
    rw [hkey2] at this
    rwa [hkey] at this
  · rw [List.all_eq_true]
    intro v hv
    have h1 := sortAscBy_mem valLe v _ hv
    have h2 := firstDedup_mem _ v h1
    simp only [List.mem_map] at h2
    obtain ⟨r, hr, hkey⟩ := h2
    have hok := (List.mem_filter.mp hr).2
    have := supplierCountOk_key r hok
    rwa [hkey] at this

end Nesma
